import Mathlib

/-!
Verification of the knowledge-store / matcher / tool-dispatcher core of the
`jira-mcp-server` repository (`src/jira_mcp_server/knowledge_store.py` and
`src/jira_mcp_server/mcp_server.py`), shallowly embedded in Lean.

Python strings are modelled as `List Char` (`Str`).  `str.lower` is modelled
by its ASCII case mapping and `str.strip` by removal of the ASCII whitespace
characters, which is what the relevant code paths exercise.
-/

/-- Python strings, modelled as lists of characters. -/
abbrev Str := List Char

/-- Convert a Lean string literal into the model type. -/
def str (s : String) : Str := s.data

/-- Model of Python `str.lower` on a single character (ASCII case mapping). -/
def pyLowerChar (c : Char) : Char :=
  if 'A' ≤ c ∧ c ≤ 'Z' then Char.ofNat (c.toNat + 32) else c

/-- Model of Python `str.lower`: character-wise lowering. -/
def pyLower (s : Str) : Str := s.map pyLowerChar

/-- Model of Python `str.isspace` / the characters removed by `str.strip`
(ASCII whitespace). -/
def pyIsSpace (c : Char) : Bool :=
  c = ' ' || c = '\t' || c = '\n' || c = '\r' || c = '\x0b' || c = '\x0c'

/-- Model of Python `str.strip`: drop whitespace from both ends. -/
def pyStrip (s : Str) : Str :=
  ((s.dropWhile pyIsSpace).reverse.dropWhile pyIsSpace).reverse

/-- Python `pat in hay` for strings: contiguous-substring test. -/
def containsSub (hay pat : Str) : Bool :=
  match hay with
  | [] => pat.isEmpty
  | _ :: t => pat.isPrefixOf hay || containsSub t pat

/-- `QueryMapping` pydantic model from `knowledge_store.py`:
required `question_patterns`, `jql_query`, `description`; optional
`examples`. -/
structure QueryMapping where
  question_patterns : List Str
  jql_query : Str
  description : Str
  examples : Option (List Str) := none
deriving DecidableEq, Repr

/-- `question.lower().strip()` — the normalisation applied to the question in
`YamlKnowledgeStore.get_jql_for_question`. -/
def normalizeQuestion (q : Str) : Str := pyStrip (pyLower q)

/-- Inner loop of `get_jql_for_question`: does some pattern of `m`, lowered,
occur in the normalised question `ql`? -/
def mappingMatches (ql : Str) (m : QueryMapping) : Bool :=
  m.question_patterns.any (fun p => containsSub ql (pyLower p))

/-- `YamlKnowledgeStore.get_jql_for_question`: scan the mappings in order and
return the `jql_query` of the first mapping one of whose lowered patterns is a
substring of the lowered, stripped question. -/
def get_jql_for_question (mappings : List QueryMapping) (question : Str) :
    Option Str :=
  let ql := normalizeQuestion question
  match mappings.find? (fun m => mappingMatches ql m) with
  | some m => some m.jql_query
  | none => none

/-- `YamlKnowledgeStore.list_available_queries` returns `self._mappings.copy()`,
whose (value-level) contents are the mappings themselves. -/
def list_available_queries (mappings : List QueryMapping) : List QueryMapping :=
  mappings

/-- The sample mapping used in the tests of the repository (patterns
`["open bugs", "active bugs"]`). -/
def mOpenBugs : QueryMapping :=
  { question_patterns := [str "open bugs", str "active bugs"]
    jql_query := str "type = Bug AND status != Done"
    description := str "Find open bugs" }

/-- A single-pattern mapping with pattern `"open bugs"`. -/
def mOpenBugsOnly : QueryMapping :=
  { question_patterns := [str "open bugs"]
    jql_query := str "type = Bug AND status != Done"
    description := str "Find open bugs" }

/-- `find?` returns exactly the first element satisfying the predicate:
a decomposition of the list with all earlier elements failing it. -/
theorem find?_eq_some_first {α : Type _} (p : α → Bool) (l : List α) (a : α) :
    l.find? p = some a ↔
      ∃ pre post, l = pre ++ a :: post ∧ p a = true ∧ ∀ x ∈ pre, p x = false := by
  induction l with
  | nil => simp
  | cons b t ih =>
    cases hb : p b with
    | false =>
      rw [List.find?_cons_of_neg _ (by simp [hb]), ih]
      constructor
      · rintro ⟨pre, post, rfl, hpa, hpre⟩
        refine ⟨b :: pre, post, rfl, hpa, ?_⟩
        intro x hx
        rcases List.mem_cons.mp hx with rfl | hx
        · exact hb
        · exact hpre x hx
      · rintro ⟨pre, post, heq, hpa, hpre⟩
        cases pre with
        | nil =>
          injection heq with h1 h2
          subst h1
          rw [hb] at hpa
          exact absurd hpa (by decide)
        | cons c pre₂ =>
          injection heq with h1 h2
          subst h1
          exact ⟨pre₂, post, h2, hpa, fun x hx => hpre x (List.mem_cons_of_mem _ hx)⟩
    | true =>
      rw [List.find?_cons_of_pos _ hb]
      constructor
      · intro h
        injection h with h1
        subst h1
        exact ⟨[], t, rfl, hb, by simp⟩
      · rintro ⟨pre, post, heq, hpa, hpre⟩
        cases pre with
        | nil =>
          injection heq with h1 h2
          subst h1
          rfl
        | cons c pre₂ =>
          injection heq with h1 h2
          subst h1
          have hfalse := hpre b (List.mem_cons_self b pre₂)
          rw [hfalse] at hb
          exact absurd hb (by decide)

/-- The empty pattern is a substring of every haystack (Python `"" in s`). -/
theorem containsSub_nil (hay : Str) : containsSub hay [] = true := by
  cases hay <;> simp [containsSub, List.isPrefixOf]

/-- Normal form of `get_jql_for_question` as a `find?` over the mappings. -/
theorem get_jql_eq_find (ms : List QueryMapping) (t : Str) :
    get_jql_for_question ms t
      = Option.map (fun m => m.jql_query)
          (ms.find? fun m => mappingMatches (normalizeQuestion t) m) := by
  simp only [get_jql_for_question]
  cases ms.find? (fun m => mappingMatches (normalizeQuestion t) m) <;> rfl

/-- C1: `get_jql_for_question` scans the mappings in stored order and returns
the `jql_query` of the first mapping one of whose patterns is a
case-insensitive substring of the normalised text; when two mappings match,
the one listed first wins, and when none matches the result is `none`. -/
theorem c1_first_match_wins (ms : List QueryMapping) (t : Str) :
    (get_jql_for_question ms t = none ↔
      ∀ m ∈ ms, ∀ p ∈ m.question_patterns,
        containsSub (normalizeQuestion t) (pyLower p) = false)
    ∧ (∀ q, get_jql_for_question ms t = some q ↔
        ∃ pre m post, ms = pre ++ m :: post
          ∧ mappingMatches (normalizeQuestion t) m = true
          ∧ (∀ m₂ ∈ pre, mappingMatches (normalizeQuestion t) m₂ = false)
          ∧ q = m.jql_query) := by
  have hg := get_jql_eq_find ms t
  constructor
  · rw [hg, Option.map_eq_none', List.find?_eq_none]
    constructor
    · intro h m hm p hp
      have hmf := h m hm
      simp only [Bool.not_eq_true, mappingMatches, List.any_eq_false,
        Bool.not_eq_true] at hmf
      exact hmf p hp
    · intro h m hm
      simp only [Bool.not_eq_true, mappingMatches, List.any_eq_false,
        Bool.not_eq_true]
      intro p hp
      exact h m hm p hp
  · intro q
    rw [hg]
    constructor
    · intro hsome
      rcases Option.map_eq_some'.mp hsome with ⟨m, hf, rfl⟩
      rcases (find?_eq_some_first _ _ _).mp hf with ⟨pre, post, heq, hm, hpre⟩
      exact ⟨pre, m, post, heq, hm, hpre, rfl⟩
    · rintro ⟨pre, m, post, heq, hm, hpre, rfl⟩
      have hf : ms.find? (fun m => mappingMatches (normalizeQuestion t) m) = some m :=
        (find?_eq_some_first _ _ _).mpr ⟨pre, post, heq, hm, hpre⟩
      rw [hf]
      rfl

/-- C4: `get_jql_for_question` is a pure function of the pair
(mapping sequence, input text): equal inputs give equal results. -/
theorem c4_resolve_deterministic (ms₁ ms₂ : List QueryMapping) (t₁ t₂ : Str)
    (hms : ms₁ = ms₂) (ht : t₁ = t₂) :
    get_jql_for_question ms₁ t₁ = get_jql_for_question ms₂ t₂ := by
  rw [hms, ht]

/-- Witness for C4 at a concrete store and question. -/
theorem c4_resolve_deterministic_witness :
    get_jql_for_question [mOpenBugs] (str "open bugs")
      = get_jql_for_question [mOpenBugs] (str "open bugs") :=
  c4_resolve_deterministic [mOpenBugs] [mOpenBugs] (str "open bugs")
    (str "open bugs") rfl rfl

/-- Lowering leaves whitespace characters unchanged. -/
theorem pyLowerChar_ws (c : Char) (h : pyIsSpace c = true) : pyLowerChar c = c := by
  simp only [pyIsSpace, Bool.or_eq_true, decide_eq_true_eq] at h
  rcases h with ((((rfl | rfl) | rfl) | rfl) | rfl) | rfl <;> decide

/-- Dropping leading whitespace skips over an all-whitespace prefix. -/
theorem dropWhile_ws_append (w x : Str) (hw : ∀ c ∈ w, pyIsSpace c = true) :
    (w ++ x).dropWhile pyIsSpace = x.dropWhile pyIsSpace := by
  induction w with
  | nil => rfl
  | cons c t ih =>
    rw [List.cons_append, List.dropWhile_cons]
    simp only [hw c (List.mem_cons_self c t), if_true]
    exact ih fun d hd => hw d (List.mem_cons_of_mem _ hd)

/-- When `dropWhile` keeps something of `x`, appending to `x` appends past it. -/
theorem dropWhile_append_of_ne_nil (p : Char → Bool) (x w : Str)
    (h : x.dropWhile p ≠ []) : (x ++ w).dropWhile p = x.dropWhile p ++ w := by
  induction x with
  | nil => exact absurd rfl h
  | cons c t ih =>
    rw [List.cons_append, List.dropWhile_cons, List.dropWhile_cons] at *
    cases hc : p c with
    | true =>
      simp only [hc, if_true] at h ⊢
      exact ih h
    | false => simp [hc]

/-- `strip` ignores an all-whitespace prefix. -/
theorem pyStrip_ws_left (w x : Str) (hw : ∀ c ∈ w, pyIsSpace c = true) :
    pyStrip (w ++ x) = pyStrip x := by
  unfold pyStrip
  rw [dropWhile_ws_append w x hw]

/-- `strip` ignores an all-whitespace suffix. -/
theorem pyStrip_ws_right (x w : Str) (hw : ∀ c ∈ w, pyIsSpace c = true) :
    pyStrip (x ++ w) = pyStrip x := by
  unfold pyStrip
  cases h : x.dropWhile pyIsSpace with
  | nil =>
    have hx : ∀ c ∈ x, pyIsSpace c := by
      intro c hc
      exact List.dropWhile_eq_nil_iff.mp h c hc
    have hxw : (x ++ w).dropWhile pyIsSpace = [] := by
      apply List.dropWhile_eq_nil_iff.mpr
      intro c hc
      rcases List.mem_append.mp hc with hc | hc
      · exact hx c hc
      · exact hw c hc
    rw [hxw]
  | cons c y =>
    have hne : x.dropWhile pyIsSpace ≠ [] := by rw [h]; simp
    rw [dropWhile_append_of_ne_nil pyIsSpace x w hne, h, List.reverse_append,
      dropWhile_ws_append w.reverse (c :: y).reverse
        (fun d hd => hw d (List.mem_reverse.mp hd))]

/-- Normalisation is unchanged by surrounding whitespace. -/
theorem normalizeQuestion_surround (t w₁ w₂ : Str)
    (h₁ : ∀ c ∈ w₁, pyIsSpace c = true) (h₂ : ∀ c ∈ w₂, pyIsSpace c = true) :
    normalizeQuestion (w₁ ++ t ++ w₂) = normalizeQuestion t := by
  unfold normalizeQuestion pyLower
  rw [List.map_append, List.map_append]
  have hw₁ : ∀ c ∈ w₁.map pyLowerChar, pyIsSpace c = true := by
    intro c hc
    rcases List.mem_map.mp hc with ⟨d, hd, rfl⟩
    rw [pyLowerChar_ws d (h₁ d hd)]
    exact h₁ d hd
  have hw₂ : ∀ c ∈ w₂.map pyLowerChar, pyIsSpace c = true := by
    intro c hc
    rcases List.mem_map.mp hc with ⟨d, hd, rfl⟩
    rw [pyLowerChar_ws d (h₂ d hd)]
    exact h₂ d hd
  rw [pyStrip_ws_right _ _ hw₂, pyStrip_ws_left _ _ hw₁]

/-- C5: `get_jql_for_question` is insensitive to letter case and to
leading/trailing whitespace of the question; in particular `" Open Bugs "`,
`"OPEN BUGS"` and `"open bugs"` resolve identically against a mapping with
pattern `"open bugs"`. -/
theorem c5_case_whitespace_insensitive :
    (∀ (ms : List QueryMapping) (t t₂ : Str), pyLower t₂ = pyLower t →
      get_jql_for_question ms t₂ = get_jql_for_question ms t)
    ∧ (∀ (ms : List QueryMapping) (t w₁ w₂ : Str),
        (∀ c ∈ w₁, pyIsSpace c = true) → (∀ c ∈ w₂, pyIsSpace c = true) →
        get_jql_for_question ms (w₁ ++ t ++ w₂) = get_jql_for_question ms t)
    ∧ (get_jql_for_question [mOpenBugsOnly] (str " Open Bugs ")
        = get_jql_for_question [mOpenBugsOnly] (str "open bugs")
      ∧ get_jql_for_question [mOpenBugsOnly] (str "OPEN BUGS")
        = get_jql_for_question [mOpenBugsOnly] (str "open bugs")
      ∧ get_jql_for_question [mOpenBugsOnly] (str "open bugs")
        = some (str "type = Bug AND status != Done")) := by
  refine ⟨?_, ?_, by decide, by decide, by decide⟩
  · intro ms t t₂ h
    rw [get_jql_eq_find, get_jql_eq_find]
    unfold normalizeQuestion
    rw [h]
  · intro ms t w₁ w₂ h₁ h₂
    rw [get_jql_eq_find, get_jql_eq_find, normalizeQuestion_surround t w₁ w₂ h₁ h₂]

/-- Witness for C5 at concrete inputs. -/
theorem c5_case_whitespace_insensitive_witness :
    get_jql_for_question [mOpenBugsOnly] (str "OPEN BUGS")
      = get_jql_for_question [mOpenBugsOnly] (str "open bugs") :=
  c5_case_whitespace_insensitive.1 [mOpenBugsOnly] (str "open bugs")
    (str "OPEN BUGS") (by decide)

/-- C9: a mapping containing the empty pattern matches every question, so a
store holding such a mapping never resolves to `none`. -/
theorem c9_empty_pattern_matches_all (ms : List QueryMapping) (t : Str)
    (h : ∃ m ∈ ms, (str "") ∈ m.question_patterns) :
    ∃ q, get_jql_for_question ms t = some q := by
  rcases h with ⟨m, hm, hp⟩
  have hmatch : mappingMatches (normalizeQuestion t) m = true := by
    simp only [mappingMatches, List.any_eq_true]
    exact ⟨str "", hp, containsSub_nil _⟩
  rw [get_jql_eq_find]
  cases hf : ms.find? (fun m => mappingMatches (normalizeQuestion t) m) with
  | none =>
    have := List.find?_eq_none.mp hf m hm
    rw [hmatch] at this
    exact absurd rfl this
  | some m₂ => exact ⟨m₂.jql_query, rfl⟩

/-- Witness for C9: a store whose second mapping carries an empty pattern. -/
theorem c9_empty_pattern_matches_all_witness :
    ∃ q, get_jql_for_question
      [mOpenBugsOnly,
       { question_patterns := [str ""], jql_query := str "ORDER BY created"
         description := str "Everything" }]
      (str "zzz") = some q :=
  c9_empty_pattern_matches_all _ (str "zzz")
    ⟨{ question_patterns := [str ""], jql_query := str "ORDER BY created"
       description := str "Everything" }, by decide, by decide⟩

/-- One issue record as produced by `JiraClient.execute_jql` (assignee and
priority may be `None`). -/
structure Issue where
  key : Str
  summary : Str
  status : Str
  issuetype : Str
  project : Str
  assignee : Option Str
  priority : Option Str
  created : Str
deriving DecidableEq, Repr

/-- The result dictionary of `JiraClient.execute_jql`: total count and
issue records. -/
structure JqlResults where
  total : Nat
  issues : List Issue
deriving DecidableEq, Repr

/-- `mcp.types.TextContent` restricted to the fields the server uses. -/
structure TextContent where
  text : Str
deriving DecidableEq, Repr

/-- `mcp.types.CallToolResult`: rendered content plus the error flag, which
defaults to `False` when not passed. -/
structure CallToolResult where
  content : List TextContent
  isError : Bool := false
deriving DecidableEq, Repr

/-- Python truthiness of an optional string (`None` and `""` are falsy). -/
def optTruthy (o : Option Str) : Bool :=
  match o with
  | some s => !s.isEmpty
  | none => false

/-- Decimal rendering of a count, as Python string interpolation does. -/
def natStr (n : Nat) : Str := (toString n).data

/-- The per-issue block rendered by `_execute_jql_tool` and
`_answer_question_tool` (assignee/priority lines only when truthy). -/
def formatIssueBlock (issue : Issue) : Str :=
  str "🎫 " ++ issue.key ++ str ": " ++ issue.summary ++ str "\n"
    ++ str "   Status: " ++ issue.status ++ str "\n"
    ++ str "   Type: " ++ issue.issuetype ++ str "\n"
    ++ str "   Project: " ++ issue.project ++ str "\n"
    ++ (if optTruthy issue.assignee
        then str "   Assignee: " ++ issue.assignee.getD [] ++ str "\n" else [])
    ++ (if optTruthy issue.priority
        then str "   Priority: " ++ issue.priority.getD [] ++ str "\n" else [])
    ++ str "   Created: " ++ issue.created ++ str "\n\n"

/-- The issue-list section of the report: all blocks, or the explicit
no-issues line when the list is empty. -/
def formatIssuesSection (results : JqlResults) : Str :=
  if results.issues.isEmpty
  then str "No issues found matching the query.\n"
  else (results.issues.map formatIssueBlock).flatten

/-- `JiraMCPServer._execute_jql_tool`.  The executor
(`self.jira_client.execute_jql`) is passed as a function returning either a
result dictionary or the message of a raised exception.  The two argument-bag
lookups `arguments.get("jql")` / `arguments.get("max_results", 50)` are
modelled as the two optional parameters. -/
def execute_jql_tool (exec : Str → Nat → Except Str JqlResults)
    (jql : Option Str) (max_results : Option Nat) : CallToolResult :=
  if ¬ optTruthy jql then
    { content := [⟨str "JQL query is required"⟩], isError := true }
  else
    let q := jql.getD []
    match exec q (max_results.getD 50) with
    | .ok results =>
        { content := [⟨str "JQL Query: " ++ q ++ str "\n"
            ++ str "Total Results: " ++ natStr results.total ++ str "\n\n"
            ++ formatIssuesSection results⟩] }
    | .error e =>
        { content := [⟨str "Failed to execute JQL query: " ++ e⟩]
          isError := true }

/-- The no-match message of `_answer_question_tool`: names the question and
joins `- {description}` lines for `available_queries[:5]`. -/
def noMatchText (store : List QueryMapping) (q : Str) : Str :=
  str "Could not find a JQL query for your question: \x27" ++ q
    ++ str "\x27\n\nAvailable query types:\n"
    ++ List.intercalate (str "\n")
        (((list_available_queries store).take 5).map
          fun m => str "- " ++ m.description)
    ++ str "\n\nTry rephrasing your question or use the \x27execute_jql\x27 tool directly."

/-- `JiraMCPServer._answer_question_tool`: validates the question, resolves it
through the knowledge store, and either reports the no-match suggestions
(success-flagged) or executes the matched JQL.  A falsy resolved query
(`if not jql:`) takes the no-match branch. -/
def answer_question_tool (store : List QueryMapping)
    (exec : Str → Nat → Except Str JqlResults)
    (question : Option Str) (max_results : Option Nat) : CallToolResult :=
  if ¬ optTruthy question then
    { content := [⟨str "Question is required"⟩], isError := true }
  else
    let q := question.getD []
    match get_jql_for_question store q with
    | none => { content := [⟨noMatchText store q⟩] }
    | some jql =>
      if jql.isEmpty then { content := [⟨noMatchText store q⟩] }
      else
        match exec jql (max_results.getD 50) with
        | .ok results =>
            { content := [⟨str "Question: " ++ q ++ str "\n"
                ++ str "Matched JQL: " ++ jql ++ str "\n"
                ++ str "Total Results: " ++ natStr results.total ++ str "\n\n"
                ++ formatIssuesSection results⟩] }
        | .error e =>
            { content := [⟨str "Failed to answer question: " ++ e⟩]
              isError := true }

/-- A fixed executor that always fails; used only to instantiate witnesses on
branches that never consult the executor. -/
def stubExec : Str → Nat → Except Str JqlResults :=
  fun _ _ => .error (str "unreachable")

/-- An eight-mapping store (for the suggestion-cap witness). -/
def store8 : List QueryMapping :=
  (List.range 8).map fun i =>
    { question_patterns := [str "pattern " ++ natStr i]
      jql_query := str "project = P" ++ natStr i
      description := str "Query number " ++ natStr i }

/-- C6: a missing or empty `jql` argument makes `execute_jql_tool` return the
failure-flagged "JQL query is required" result, identically for every
executor (so the executor is never consulted). -/
theorem c6_missing_query_validation
    (exec₁ exec₂ : Str → Nat → Except Str JqlResults)
    (jql : Option Str) (mr : Option Nat)
    (h : jql = none ∨ jql = some []) :
    execute_jql_tool exec₁ jql mr
        = { content := [⟨str "JQL query is required"⟩], isError := true }
      ∧ execute_jql_tool exec₁ jql mr = execute_jql_tool exec₂ jql mr := by
  rcases h with rfl | rfl <;>
    simp [execute_jql_tool, optTruthy]

/-- Witness for C6: absent `jql` argument. -/
theorem c6_missing_query_validation_witness :
    execute_jql_tool stubExec none none
        = { content := [⟨str "JQL query is required"⟩], isError := true }
      ∧ execute_jql_tool stubExec none none
        = execute_jql_tool (fun _ _ => .ok ⟨0, []⟩) none none :=
  c6_missing_query_validation stubExec (fun _ _ => .ok ⟨0, []⟩) none none
    (Or.inl rfl)

/-- C7: on a non-empty question with no knowledge-store match,
`answer_question_tool` renders the message naming the question followed by
the `- description` lines of the first five stored mappings, and the number
of listed descriptions is `min 5 (number of mappings)`. -/
theorem c7_no_match_suggestion_cap (store : List QueryMapping)
    (exec : Str → Nat → Except Str JqlResults) (q : Str) (mr : Option Nat)
    (hq : q ≠ [])
    (hnone : get_jql_for_question store q = none) :
    answer_question_tool store exec (some q) mr
        = { content := [⟨str "Could not find a JQL query for your question: \x27"
              ++ q ++ str "\x27\n\nAvailable query types:\n"
              ++ List.intercalate (str "\n")
                  (((list_available_queries store).take 5).map
                    fun m => str "- " ++ m.description)
              ++ str "\n\nTry rephrasing your question or use the \x27execute_jql\x27 tool directly."⟩]
            isError := false }
      ∧ (((list_available_queries store).take 5).map
          fun m => m.description).length = min 5 store.length := by
  constructor
  · simp only [answer_question_tool, optTruthy, Bool.not_eq_true]
    rw [if_neg (by simp [hq])]
    simp only [Option.getD_some, hnone, noMatchText]
  · simp [list_available_queries, List.length_take]

/-- Witness for C7: with eight mappings exactly five descriptions appear. -/
theorem c7_no_match_suggestion_cap_witness :
    (((list_available_queries store8).take 5).map
        fun m => m.description).length = min 5 store8.length :=
  (c7_no_match_suggestion_cap store8 stubExec (str "zzz") none (by decide)
    (by decide)).2

/-- C10: the no-match suggestion result of `answer_question_tool` is a
success (error flag unset), whereas a missing/empty question and an executor
failure produce failure-flagged results. -/
theorem c10_no_match_is_success (store : List QueryMapping)
    (exec : Str → Nat → Except Str JqlResults) (q : Str) (mr : Option Nat)
    (jql e : Str)
    (hq : q ≠ []) :
    (get_jql_for_question store q = none →
        (answer_question_tool store exec (some q) mr).isError = false)
      ∧ (answer_question_tool store exec none mr).isError = true
      ∧ (answer_question_tool store exec (some []) mr).isError = true
      ∧ (get_jql_for_question store q = some jql → jql ≠ [] →
          exec jql (mr.getD 50) = .error e →
          (answer_question_tool store exec (some q) mr).isError = true) := by
  refine ⟨?_, by simp [answer_question_tool, optTruthy], ?_, ?_⟩
  · intro hnone
    simp only [answer_question_tool, optTruthy, Bool.not_eq_true]
    rw [if_neg (by simp [hq])]
    simp [hnone]
  · simp [answer_question_tool, optTruthy]
  · intro hsome hjql hfail
    simp only [answer_question_tool, optTruthy, Bool.not_eq_true]
    rw [if_neg (by simp [hq])]
    simp only [Option.getD_some, hsome]
    rw [if_neg (by simp [hjql])]
    simp [hfail]

/-- Witness for C10 with a one-mapping store and an unmatched question. -/
theorem c10_no_match_is_success_witness :
    (answer_question_tool [mOpenBugsOnly] stubExec (some (str "closed issues"))
      none).isError = false :=
  (c10_no_match_is_success [mOpenBugsOnly] stubExec (str "closed issues") none
    [] [] (by decide)).1 (by decide)

/-- A parsed YAML value (the result of `yaml.safe_load`).  Mapping keys are
modelled as strings, the shape the store file uses. -/
inductive YamlVal where
  | null
  | bool (b : Bool)
  | int (n : Int)
  | strv (s : Str)
  | list (xs : List YamlVal)
  | map (kvs : List (Str × YamlVal))

/-- A Python exception as relevant to `reload`: `yaml.YAMLError` is folded
into the file-source model; `ValueError` covers pydantic `ValidationError`. -/
inductive PyErr where
  | typeError (msg : Str)
  | keyError (msg : Str)
  | valueError (msg : Str)
deriving DecidableEq, Repr

/-- The source file as `reload` sees it: absent, or present with the outcome
of `yaml.safe_load` (a syntax-error message, or a parsed value; an empty
document loads as `None`, i.e. `YamlVal.null`). -/
inductive FileSource where
  | missing
  | present (parsed : Except Str YamlVal)

/-- Python truthiness of a parsed YAML value. -/
def truthy : YamlVal → Bool
  | .null => false
  | .bool b => b
  | .int n => n != 0
  | .strv s => !s.isEmpty
  | .list xs => !xs.isEmpty
  | .map kvs => !kvs.isEmpty

/-- Python dict lookup; on duplicate keys the last occurrence wins, as in
dict construction. -/
def dictGet (kvs : List (Str × YamlVal)) (k : Str) : Option YamlVal :=
  (kvs.reverse.find? fun kv => kv.1 == k).map fun kv => kv.2

/-- Python equality of a YAML value with the string `"queries"` (only that
very string compares equal). -/
def eqQueriesStr : YamlVal → Bool
  | .strv s => s == str "queries"
  | _ => false

/-- Python `"queries" in data`: key membership for mappings, substring test
for strings, element membership for lists, `TypeError` for scalars. -/
def hasKeyQueries : YamlVal → Except PyErr Bool
  | .map kvs => .ok (kvs.any fun kv => kv.1 == str "queries")
  | .strv s => .ok (containsSub s (str "queries"))
  | .list xs => .ok (xs.any eqQueriesStr)
  | .null => .error (.typeError (str "argument of type \x27NoneType\x27 is not iterable"))
  | .bool _ => .error (.typeError (str "argument of type \x27bool\x27 is not iterable"))
  | .int _ => .error (.typeError (str "argument of type \x27int\x27 is not iterable"))

/-- Python `data["queries"]` for the value shapes reachable after the
membership test succeeded. -/
def getQueries : YamlVal → Except PyErr YamlVal
  | .map kvs =>
      match dictGet kvs (str "queries") with
      | some v => .ok v
      | none => .error (.keyError (str "queries"))
  | .strv _ => .error (.typeError (str "string indices must be integers"))
  | .list _ => .error (.typeError (str "list indices must be integers or slices, not str"))
  | .null => .error (.typeError (str "\x27NoneType\x27 object is not subscriptable"))
  | .bool _ => .error (.typeError (str "\x27bool\x27 object is not subscriptable"))
  | .int _ => .error (.typeError (str "\x27int\x27 object is not subscriptable"))

/-- Python `for mapping in data["queries"]`: lists iterate elements, strings
iterate one-character strings, dicts iterate their keys, scalars raise. -/
def iterElems : YamlVal → Except PyErr (List YamlVal)
  | .list xs => .ok xs
  | .strv s => .ok (s.map fun c => .strv [c])
  | .map kvs => .ok (kvs.map fun kv => .strv kv.1)
  | .null => .error (.typeError (str "\x27NoneType\x27 object is not iterable"))
  | .bool _ => .error (.typeError (str "\x27bool\x27 object is not iterable"))
  | .int _ => .error (.typeError (str "\x27int\x27 object is not iterable"))

/-- Read a pydantic `str` field. -/
def asStr : YamlVal → Option Str
  | .strv s => some s
  | _ => none

/-- Read a pydantic `list[str]` field. -/
def asStrList : YamlVal → Option (List Str)
  | .list xs => xs.mapM asStr
  | _ => none

/-- Read the optional `examples: list[str] | None` field (absent and `null`
both give `None`). -/
def readExamples : Option YamlVal → Option (Option (List Str))
  | none => some none
  | some .null => some none
  | some v => (asStrList v).map some

/-- pydantic field validation of one record: the three required fields must
be present with the declared shapes; extra keys are ignored. -/
def validateFields (kvs : List (Str × YamlVal)) : Option QueryMapping :=
  match dictGet kvs (str "question_patterns"), dictGet kvs (str "jql_query"),
      dictGet kvs (str "description") with
  | some pv, some jv, some dv =>
      match asStrList pv, asStr jv, asStr dv,
          readExamples (dictGet kvs (str "examples")) with
      | some ps, some j, some d, some ex => some ⟨ps, j, d, ex⟩
      | _, _, _, _ => none
  | _, _, _ => none

/-- `QueryMapping(**record)`: a non-mapping record raises `TypeError`; a
mapping that fails field validation raises pydantic `ValidationError`
(a `ValueError`). -/
def validateRecord (v : YamlVal) : Except PyErr QueryMapping :=
  match v with
  | .map kvs =>
      match validateFields kvs with
      | some m => .ok m
      | none => .error (.valueError (str "validation error for QueryMapping"))
  | _ => .error (.typeError (str "argument after ** must be a mapping"))

/-- The list comprehension `[QueryMapping(**mapping) for mapping in ...]`:
records validated left to right, aborting at the first exception. -/
def buildMappings : List YamlVal → Except PyErr (List QueryMapping)
  | [] => .ok []
  | v :: vs =>
    match validateRecord v with
    | .error e => .error e
    | .ok m =>
      match buildMappings vs with
      | .error e => .error e
      | .ok ms => .ok (m :: ms)

/-- The message of the `ValueError` re-raised by `reload`:
`f"Failed to load knowledge store from {self.file_path}: {e}"`. -/
def wrapMsg (path msg : Str) : Str :=
  str "Failed to load knowledge store from " ++ path ++ str ": " ++ msg

/-- `YamlKnowledgeStore.reload`, as a function from the file source and the
previous `_mappings` to the outcome of the call paired with the value of
`_mappings` afterwards.  `yaml.YAMLError` and `ValueError` (including
pydantic `ValidationError`) are caught and re-raised as a `ValueError`
naming the file path; other exceptions escape unwrapped.  The assignment to
`_mappings` happens only after the whole record list has been built, so no
failure path touches it.  The successive statements of the `try` block are
the staged helpers `reloadData` (truthiness and key test), `reloadGet`
(`data["queries"]`), `reloadIter` (the `for` iteration) and `reloadBuild`
(the comprehension plus assignment). -/
def reloadBuild (path : Str) (old : List QueryMapping) (elems : List YamlVal) :
    Except PyErr Unit × List QueryMapping :=
  match buildMappings elems with
  | .ok ms => (.ok (), ms)
  | .error (.valueError m) => (.error (.valueError (wrapMsg path m)), old)
  | .error e => (.error e, old)

def reloadIter (path : Str) (old : List QueryMapping) (qv : YamlVal) :
    Except PyErr Unit × List QueryMapping :=
  match iterElems qv with
  | .error e => (.error e, old)
  | .ok elems => reloadBuild path old elems

def reloadGet (path : Str) (old : List QueryMapping) (data : YamlVal) :
    Except PyErr Unit × List QueryMapping :=
  match getQueries data with
  | .error e => (.error e, old)
  | .ok qv => reloadIter path old qv

def reloadData (path : Str) (old : List QueryMapping) (data : YamlVal) :
    Except PyErr Unit × List QueryMapping :=
  if ¬ truthy data then (.ok (), [])
  else
    match hasKeyQueries data with
    | .error e => (.error e, old)
    | .ok false => (.ok (), [])
    | .ok true => reloadGet path old data

def reloadState (path : Str) (src : FileSource) (old : List QueryMapping) :
    Except PyErr Unit × List QueryMapping :=
  match src with
  | .missing => (.ok (), [])
  | .present (.error msg) => (.error (.valueError (wrapMsg path msg)), old)
  | .present (.ok data) => reloadData path old data

/-- Is an `Except` outcome a success? -/
def exceptIsOk {ε α : Type _} : Except ε α → Bool
  | .ok _ => true
  | .error _ => false

/-- Does the source file exist? -/
def srcExists : FileSource → Bool
  | .missing => false
  | .present _ => true

/-- Is the source file present but syntactically malformed? -/
def isSyntaxMalformed : FileSource → Bool
  | .present (.error _) => true
  | _ => false

/-- Does some record under the top-level `queries` key fail
required-field validation? -/
def someRecordFails : FileSource → Bool
  | .present (.ok (.map kvs)) =>
      match dictGet kvs (str "queries") with
      | some (.list xs) => xs.any fun v => !(exceptIsOk (validateRecord v))
      | _ => false
  | _ => false

/-- Is the value a YAML mapping? -/
def isMapVal : YamlVal → Bool
  | .map _ => true
  | _ => false

/-- The document shapes for which C2 speaks: absent, syntactically
malformed, falsy top level, or a top-level mapping whose `queries` entry, if
present, is a list of mappings. -/
def goodShape : FileSource → Bool
  | .missing => true
  | .present (.error _) => true
  | .present (.ok d) =>
    if ¬ truthy d then true
    else
      match d with
      | .map kvs =>
        match dictGet kvs (str "queries") with
        | none => true
        | some (.list xs) => xs.all isMapVal
        | some _ => false
      | _ => false

/-- C3: `reload` is atomic on failure: whenever the call raises, the
previously loaded mapping sequence is left exactly as it was. -/
theorem c3_reload_atomic_on_failure (path : Str) (src : FileSource)
    (old : List QueryMapping) (e : PyErr)
    (h : (reloadState path src old).1 = .error e) :
    (reloadState path src old).2 = old := by
  have hbuild : ∀ elems, (reloadBuild path old elems).1 = .error e →
      (reloadBuild path old elems).2 = old := by
    intro elems
    unfold reloadBuild
    cases buildMappings elems with
    | ok ms => intro hb; simp at hb
    | error e₂ => intro _; cases e₂ <;> rfl
  have hiter : ∀ qv, (reloadIter path old qv).1 = .error e →
      (reloadIter path old qv).2 = old := by
    intro qv
    unfold reloadIter
    cases iterElems qv with
    | error e₂ => intro _; rfl
    | ok elems => exact hbuild elems
  have hget : ∀ data, (reloadGet path old data).1 = .error e →
      (reloadGet path old data).2 = old := by
    intro data
    unfold reloadGet
    cases getQueries data with
    | error e₂ => intro _; rfl
    | ok qv => exact hiter qv
  have hdata : ∀ data, (reloadData path old data).1 = .error e →
      (reloadData path old data).2 = old := by
    intro data
    unfold reloadData
    by_cases ht : truthy data = true
    · rw [if_neg (by simp [ht])]
      cases hasKeyQueries data with
      | error e₂ => intro _; rfl
      | ok b =>
        cases b
        · intro hd; simp at hd
        · exact hget data
    · rw [if_pos (by simp [ht])]
      intro hd
      simp at hd
  rcases src with _ | parsed
  · simp [reloadState] at h
  · rcases parsed with msg | yval
    · rfl
    · exact hdata yval h

/-- Witness for C3: a syntactically malformed source leaves prior mappings. -/
theorem c3_reload_atomic_on_failure_witness :
    (reloadState (str "kb.yaml")
      (FileSource.present (.error (str "bad syntax"))) [mOpenBugs]).2
      = [mOpenBugs] :=
  c3_reload_atomic_on_failure (str "kb.yaml")
    (FileSource.present (.error (str "bad syntax"))) [mOpenBugs]
    (.valueError (wrapMsg (str "kb.yaml") (str "bad syntax"))) rfl

/-- `dictGet` finds nothing exactly when no key matches. -/
theorem dictGet_eq_none_iff (kvs : List (Str × YamlVal)) (k : Str) :
    dictGet kvs k = none ↔ (kvs.any fun kv => kv.1 == k) = false := by
  unfold dictGet
  rw [Option.map_eq_none', List.find?_eq_none]
  constructor
  · intro h
    apply List.any_eq_false.mpr
    intro kv hkv
    exact h kv (List.mem_reverse.mpr hkv)
  · intro h kv hkv
    exact List.any_eq_false.mp h kv (List.mem_reverse.mp hkv)

/-- The comprehension succeeds exactly when every record validates. -/
theorem buildMappings_isOk (xs : List YamlVal) :
    exceptIsOk (buildMappings xs)
      = xs.all fun v => exceptIsOk (validateRecord v) := by
  induction xs with
  | nil => rfl
  | cons v vs ih =>
    rw [List.all_cons, ← ih]
    simp only [buildMappings]
    cases validateRecord v with
    | error e => simp [exceptIsOk]
    | ok m =>
      cases buildMappings vs with
      | error e => simp [exceptIsOk]
      | ok ms => simp [exceptIsOk]

/-- When every record is a mapping, a comprehension failure is a pydantic
`ValidationError`, i.e. a `ValueError`. -/
theorem buildMappings_error_valueError : ∀ (xs : List YamlVal),
    xs.all isMapVal = true → ∀ e, buildMappings xs = .error e →
    ∃ m, e = .valueError m := by
  intro xs
  induction xs with
  | nil => intro _ e h; simp [buildMappings] at h
  | cons v vs ih =>
    intro hmaps e
    rw [List.all_cons, Bool.and_eq_true] at hmaps
    obtain ⟨hv, hvs⟩ := hmaps
    simp only [buildMappings]
    cases hvr : validateRecord v with
    | error e₂ =>
      intro h
      injection h with h1
      subst h1
      cases v with
      | map kvs =>
        simp only [validateRecord] at hvr
        revert hvr
        cases validateFields kvs with
        | some m => intro hvr; simp at hvr
        | none =>
          intro hvr
          injection hvr with h2
          exact ⟨str "validation error for QueryMapping", h2.symm⟩
      | null => simp [isMapVal] at hv
      | bool b => simp [isMapVal] at hv
      | int n => simp [isMapVal] at hv
      | strv s => simp [isMapVal] at hv
      | list ys => simp [isMapVal] at hv
    | ok m =>
      cases hb : buildMappings vs with
      | error e₂ =>
        intro h
        injection h with h1
        subst h1
        exact ih hvs e₂ hb
      | ok ms => intro h; simp at h

/-- A truthy value with no matching record shape fails `someRecordFails`. -/
theorem someRecordFails_falsy (d : YamlVal) (ht : truthy d = false) :
    someRecordFails (.present (.ok d)) = false := by
  cases d with
  | map kvs =>
    simp only [truthy, Bool.not_eq_true'] at ht
    have : kvs = [] := by
      cases kvs with
      | nil => rfl
      | cons kv t => simp at ht
    subst this
    rfl
  | null => rfl
  | bool b => rfl
  | int n => rfl
  | strv s => rfl
  | list xs => rfl

/-- `reload` on a missing file: empty store, no error. -/
theorem reload_missing (path : Str) (old : List QueryMapping) :
    reloadState path .missing old = (.ok (), []) := rfl

/-- `reload` on a syntactically malformed file: wrapped `ValueError`. -/
theorem reload_parse_failed (path : Str) (old : List QueryMapping) (msg : Str) :
    reloadState path (.present (.error msg)) old
      = (.error (.valueError (wrapMsg path msg)), old) := rfl

/-- `reload` on a falsy document: empty store, no error. -/
theorem reload_falsy (path : Str) (old : List QueryMapping) (d : YamlVal)
    (ht : truthy d = false) :
    reloadState path (.present (.ok d)) old = (.ok (), []) := by
  simp only [reloadState, reloadData]
  rw [if_pos (by simp [ht])]

/-- `reload` on a truthy mapping without a `queries` key: empty store. -/
theorem reload_nokey (path : Str) (old : List QueryMapping)
    (kvs : List (Str × YamlVal)) (hnone : dictGet kvs (str "queries") = none) :
    truthy (.map kvs) = true →
    reloadState path (.present (.ok (.map kvs))) old = (.ok (), []) := by
  intro ht
  have hany := (dictGet_eq_none_iff kvs (str "queries")).mp hnone
  simp only [reloadState, reloadData, hasKeyQueries]
  rw [if_neg (by simp [ht]), hany]

/-- `reload` on a truthy mapping whose `queries` entry is a list reduces to
the comprehension stage on that list. -/
theorem reload_list (path : Str) (old : List QueryMapping)
    (kvs : List (Str × YamlVal)) (xs : List YamlVal)
    (hdg : dictGet kvs (str "queries") = some (.list xs)) :
    truthy (.map kvs) = true →
    reloadState path (.present (.ok (.map kvs))) old = reloadBuild path old xs := by
  intro ht
  have hkey : (kvs.any fun kv => kv.1 == str "queries") = true := by
    cases hany : kvs.any fun kv => kv.1 == str "queries" with
    | false =>
      rw [(dictGet_eq_none_iff kvs (str "queries")).mpr hany] at hdg
      exact Option.noConfusion hdg
    | true => rfl
  simp only [reloadState, reloadData, hasKeyQueries]
  rw [if_neg (by simp [ht]), hkey]
  simp only [reloadGet, getQueries, hdg, reloadIter, iterElems]

/-- C2 (amended): restricted to document shapes `goodShape` (absent,
malformed, falsy top level, or a top-level mapping whose `queries` entry is
a list of mappings), `reload` raises if and only if the file exists and is
syntactically malformed or some record fails required-field validation; any
raised error is a `ValueError` whose message contains the file path; a
missing file, and a parsed document that is falsy or lacks the `queries`
key, give an empty mapping sequence without error. -/
theorem c2_load_error_semantics (path : Str) (src : FileSource)
    (old : List QueryMapping) (hgs : goodShape src = true) :
    (exceptIsOk (reloadState path src old).1 = false ↔
      srcExists src = true ∧
        (isSyntaxMalformed src = true ∨ someRecordFails src = true))
    ∧ (∀ e, (reloadState path src old).1 = .error e →
        ∃ m, e = .valueError m ∧ ∃ pre post, m = pre ++ path ++ post)
    ∧ (src = .missing → reloadState path src old = (.ok (), []))
    ∧ (∀ d, src = .present (.ok d) →
        truthy d = false ∨ hasKeyQueries d = .ok false →
        reloadState path src old = (.ok (), [])) := by
  rcases src with _ | parsed
  · refine ⟨?_, ?_, fun _ => rfl, ?_⟩
    · rw [reload_missing]
      simp [exceptIsOk, srcExists]
    · intro e h
      rw [reload_missing] at h
      simp at h
    · intro d hd
      exact FileSource.noConfusion hd
  · rcases parsed with msg | d
    · refine ⟨?_, ?_, ?_, ?_⟩
      · rw [reload_parse_failed]
        simp [exceptIsOk, srcExists, isSyntaxMalformed]
      · intro e h
        rw [reload_parse_failed] at h
        injection h with h1
        refine ⟨wrapMsg path msg, h1.symm,
          str "Failed to load knowledge store from ", str ": " ++ msg, ?_⟩
        simp [wrapMsg, List.append_assoc]
      · intro h
        exact FileSource.noConfusion h
      · intro d hd
        injection hd with h1
        exact Except.noConfusion h1
    · by_cases ht : truthy d = true
      · cases d with
        | null => simp [truthy] at ht
        | bool b => simp [goodShape, ht] at hgs
        | int n => simp [goodShape, ht] at hgs
        | strv s2 => simp [goodShape, ht] at hgs
        | list ys => simp [goodShape, ht] at hgs
        | map kvs =>
          cases hdg : dictGet kvs (str "queries") with
          | none =>
            have hred := reload_nokey path old kvs hdg ht
            refine ⟨?_, ?_, ?_, ?_⟩
            · rw [hred]
              constructor
              · intro hcontr
                simp [exceptIsOk] at hcontr
              · rintro ⟨_, h2 | h2⟩
                · simp [isSyntaxMalformed] at h2
                · simp [someRecordFails, hdg] at h2
            · intro e h
              rw [hred] at h
              simp at h
            · intro h
              exact FileSource.noConfusion h
            · intro d₂ hd₂ hcond
              exact hred
          | some qv =>
            have hkey : (kvs.any fun kv => kv.1 == str "queries") = true := by
              cases hany : kvs.any fun kv => kv.1 == str "queries" with
              | false =>
                rw [(dictGet_eq_none_iff kvs (str "queries")).mpr hany] at hdg
                exact Option.noConfusion hdg
              | true => rfl
            have hconj4 : ∀ d₂, FileSource.present (Except.ok (.map kvs))
                  = .present (.ok d₂) →
                truthy d₂ = false ∨ hasKeyQueries d₂ = .ok false →
                reloadState path (.present (.ok (.map kvs))) old
                  = (.ok (), []) := by
              intro d₂ hd₂ hcond
              injection hd₂ with h1
              injection h1 with h2
              subst h2
              rcases hcond with hc | hc
              · rw [ht] at hc
                exact absurd hc (by decide)
              · simp [hasKeyQueries, hkey] at hc
            cases qv with
            | null => simp [goodShape, ht, hdg] at hgs
            | bool b => simp [goodShape, ht, hdg] at hgs
            | int n => simp [goodShape, ht, hdg] at hgs
            | strv s2 => simp [goodShape, ht, hdg] at hgs
            | map kvs2 => simp [goodShape, ht, hdg] at hgs
            | list xs =>
              have hall : xs.all isMapVal = true := by
                simpa [goodShape, ht, hdg] using hgs
              have hred := reload_list path old kvs xs hdg ht
              have hsrf : someRecordFails (.present (.ok (.map kvs)))
                  = xs.any fun v => !(exceptIsOk (validateRecord v)) := by
                simp [someRecordFails, hdg]
              cases hb : buildMappings xs with
              | ok ms =>
                have hok : (xs.all fun v => exceptIsOk (validateRecord v)) = true := by
                  rw [← buildMappings_isOk, hb]
                  rfl
                refine ⟨?_, ?_, fun h => FileSource.noConfusion h, hconj4⟩
                · rw [hred]
                  constructor
                  · intro hcontr
                    simp [reloadBuild, hb, exceptIsOk] at hcontr
                  · rintro ⟨_, h2 | h2⟩
                    · simp [isSyntaxMalformed] at h2
                    · rw [hsrf] at h2
                      rcases List.any_eq_true.mp h2 with ⟨v, hv, hvb⟩
                      rw [List.all_eq_true.mp hok v hv] at hvb
                      exact absurd hvb (by decide)
                · intro e h
                  rw [hred] at h
                  simp [reloadBuild, hb] at h
              | error e₂ =>
                obtain ⟨m, rfl⟩ := buildMappings_error_valueError xs hall e₂ hb
                have hredb : reloadState path (.present (.ok (.map kvs))) old
                    = (.error (.valueError (wrapMsg path m)), old) := by
                  rw [hred]
                  simp [reloadBuild, hb]
                have hnotok : (xs.all fun v => exceptIsOk (validateRecord v))
                    = false := by
                  rw [← buildMappings_isOk, hb]
                  rfl
                refine ⟨?_, ?_, fun h => FileSource.noConfusion h, hconj4⟩
                · rw [hredb]
                  constructor
                  · intro _
                    refine ⟨rfl, Or.inr ?_⟩
                    rw [hsrf]
                    rcases List.all_eq_false.mp hnotok with ⟨v, hv, hvb⟩
                    refine List.any_eq_true.mpr ⟨v, hv, ?_⟩
                    simp only [Bool.not_eq_true] at hvb
                    rw [hvb]
                    rfl
                  · intro _
                    rfl
                · intro e h
                  rw [hredb] at h
                  injection h with h1
                  refine ⟨wrapMsg path m, h1.symm,
                    str "Failed to load knowledge store from ", str ": " ++ m, ?_⟩
                  simp [wrapMsg, List.append_assoc]
      · have ht₂ : truthy d = false := by
          cases htd : truthy d
          · rfl
          · exact absurd htd ht
        have hred := reload_falsy path old d ht₂
        refine ⟨?_, ?_, fun h => FileSource.noConfusion h, ?_⟩
        · rw [hred]
          constructor
          · intro hcontr
            simp [exceptIsOk] at hcontr
          · rintro ⟨_, h2 | h2⟩
            · simp [isSyntaxMalformed] at h2
            · rw [someRecordFails_falsy d ht₂] at h2
              exact absurd h2 (by decide)
        · intro e h
          rw [hred] at h
          simp at h
        · intro d₂ hd₂ hcond
          exact hred

/-- C2 counterexample: a well-formed document consisting of the scalar `5`
(truthy, not a mapping) makes `reload` raise an uncaught `TypeError` that
does not mention the file path, although the content is not syntactically
malformed and no record fails validation. -/
theorem c2_counterexample :
    exceptIsOk (reloadState (str "knowledge.yaml")
        (FileSource.present (.ok (.int 5))) []).1 = false
    ∧ isSyntaxMalformed (FileSource.present (.ok (.int 5))) = false
    ∧ someRecordFails (FileSource.present (.ok (.int 5))) = false
    ∧ (reloadState (str "knowledge.yaml")
        (FileSource.present (.ok (.int 5))) []).1
      = .error (.typeError (str "argument of type \x27int\x27 is not iterable")) :=
  ⟨rfl, rfl, rfl, rfl⟩

/-- Witness for C2 at a syntactically malformed source. -/
theorem c2_load_error_semantics_witness :
    exceptIsOk (reloadState (str "knowledge.yaml")
      (FileSource.present (.error (str "mapping values are not allowed here")))
      []).1 = false :=
  ((c2_load_error_semantics (str "knowledge.yaml")
      (FileSource.present (.error (str "mapping values are not allowed here")))
      [] rfl).1).mpr ⟨rfl, Or.inl rfl⟩

/-- Object heap for the aliasing question of C8: list objects hold sequences
of references to `QueryMapping` objects; `next` is the next fresh address. -/
structure Mem where
  lists : Nat → List Nat
  maps : Nat → QueryMapping
  next : Nat

/-- The store object: a reference to its private `_mappings` list object. -/
structure StoreObj where
  ref : Nat

/-- The mapping sequence the store observes: dereference its list object,
then each element object. -/
def observeList (σ : Mem) (st : StoreObj) : List QueryMapping :=
  (σ.lists st.ref).map σ.maps

/-- `get_jql_for_question` against the mappings the store currently observes. -/
def observeResolve (σ : Mem) (st : StoreObj) (q : Str) : Option Str :=
  get_jql_for_question (observeList σ st) q

/-- `list_available_queries` at the object level: `self._mappings.copy()`
allocates a fresh list object containing the same element references and
returns its address. -/
def listAvailableAlloc (σ : Mem) (st : StoreObj) : Nat × Mem :=
  (σ.next,
    { lists := fun a => if a = σ.next then σ.lists st.ref else σ.lists a
      maps := σ.maps
      next := σ.next + 1 })

/-- In-place structural mutation of a list object (append, remove, index
assignment) through a reference. -/
def listWrite (σ : Mem) (a : Nat) (v : List Nat) : Mem :=
  { σ with lists := fun b => if b = a then v else σ.lists b }

/-- Field assignment on a `QueryMapping` object through a reference. -/
def mapWrite (σ : Mem) (a : Nat) (v : QueryMapping) : Mem :=
  { σ with maps := fun b => if b = a then v else σ.maps b }

/-- A concrete heap: the list object of the store at address 0 holds one
mapping object at address 1. -/
def c8mem : Mem :=
  { lists := fun a => if a = 0 then [1] else []
    maps := fun _ => mOpenBugsOnly
    next := 2 }

/-- The store under test. -/
def c8store : StoreObj := ⟨0⟩

/-- The mapping object after the caller assigns a new `jql_query` through
the list returned by `list_available_queries`. -/
def c8mut : QueryMapping :=
  { mOpenBugsOnly with jql_query := str "project = HACKED" }

/-- C8 counterexample: the copy is shallow.  Assigning a field of a mapping
object reached through the returned list changes what a subsequent
`get_jql_for_question` on the store observes. -/
theorem c8_counterexample :
    1 ∈ ((listAvailableAlloc c8mem c8store).2).lists
        (listAvailableAlloc c8mem c8store).1
    ∧ observeResolve (mapWrite (listAvailableAlloc c8mem c8store).2 1 c8mut)
        c8store (str "open bugs")
      ≠ observeResolve c8mem c8store (str "open bugs")
    ∧ observeList (mapWrite (listAvailableAlloc c8mem c8store).2 1 c8mut)
        c8store
      ≠ observeList c8mem c8store := by
  refine ⟨by decide, by decide, by decide⟩

/-- C8 (amended): the returned list is a fresh object holding the same
mapping objects, so structural mutation of the returned list itself cannot
change the sequence the store observes through later `list`/`resolve`
calls; only field assignment on the shared mapping objects can. -/
theorem c8_shallow_copy (σ : Mem) (st : StoreObj) (q : Str) (v : List Nat)
    (h : st.ref < σ.next) :
    observeList ((listAvailableAlloc σ st).2) st = observeList σ st
    ∧ observeList
        (listWrite (listAvailableAlloc σ st).2 (listAvailableAlloc σ st).1 v)
        st
      = observeList σ st
    ∧ observeResolve
        (listWrite (listAvailableAlloc σ st).2 (listAvailableAlloc σ st).1 v)
        st q
      = observeResolve σ st q := by
  have hne : st.ref ≠ σ.next := Nat.ne_of_lt h
  have h₁ : observeList ((listAvailableAlloc σ st).2) st = observeList σ st := by
    simp [observeList, listAvailableAlloc, hne]
  have h₂ : observeList
      (listWrite (listAvailableAlloc σ st).2 (listAvailableAlloc σ st).1 v) st
      = observeList σ st := by
    simp [observeList, listWrite, listAvailableAlloc, hne]
  exact ⟨h₁, h₂, by rw [observeResolve, h₂, observeResolve]⟩

/-- Witness for C8 at the concrete heap. -/
theorem c8_shallow_copy_witness :
    observeResolve
      (listWrite (listAvailableAlloc c8mem c8store).2
        (listAvailableAlloc c8mem c8store).1 []) c8store (str "open bugs")
      = observeResolve c8mem c8store (str "open bugs") :=
  (c8_shallow_copy c8mem c8store (str "open bugs") [] (by decide)).2.2

/-- A broader mapping whose single pattern `"bugs"` also matches bug
questions. -/
def mBugs : QueryMapping :=
  { question_patterns := [str "bugs"]
    jql_query := str "type = Bug"
    description := str "All bugs" }

/-- Witness for C1: both stored mappings match, the first one wins. -/
theorem c1_first_match_wins_witness :
    get_jql_for_question [mOpenBugsOnly, mBugs] (str "open bugs")
      = some (str "type = Bug AND status != Done") :=
  ((c1_first_match_wins [mOpenBugsOnly, mBugs] (str "open bugs")).2 _).mpr
    ⟨[], mOpenBugsOnly, [mBugs], rfl, by decide, by simp, rfl⟩
